import Mathlib

set_option autoImplicit false

/-!
Verification of the PATS Python client library (pats/core.py and callers).

The development shallowly embeds the transport core (`PATSAPIClient._send_request`
and `PATSAPIClient._relay_error`) and the serializable value objects
(`CampaignDetails`, `InsertionOrderDetails`, `InsertionOrderLineItem` and its
digital subclass) from `src/pats/core.py`, and proves properties of the embedded
definitions.  Python dictionaries are modelled as insertion-ordered association
lists, JSON values as the inductive `PyVal`, raised exceptions and uncaught
run-time errors as an explicit `Outcome` type, and machine floats used for
rates/costs as rationals.
-/

/-- A Python/JSON value as it appears in the payloads handled by core.py. -/
inductive PyVal where
  /-- `None` / JSON null. -/
  | pyNone
  | str (s : String)
  /-- Numeric values (Python int or float); core.py never does arithmetic on
  them beyond fixed-point formatting, so a rational carrier is exact. -/
  | num (q : Rat)
  | bool (b : Bool)
  | list (xs : List PyVal)
  /-- An insertion-ordered Python dict with string keys. -/
  | dict (kvs : List (String × PyVal))

/-- First-match lookup in an insertion-ordered dict, i.e. Python `d[k]` /
`d.get(k)` returning `none` when the key is missing. -/
def lookupKV : List (String × PyVal) → String → Option PyVal
  | [], _ => none
  | (k, v) :: rest, key => if k = key then some v else lookupKV rest key

/-- Python `d[k] = v` / `d.update({k: v})`: replace the value in place when the
key is present (keys keep their insertion position), append otherwise. -/
def dictSet : List (String × PyVal) → String → PyVal → List (String × PyVal)
  | [], key, v => [(key, v)]
  | (k, w) :: rest, key, v =>
      if k = key then (k, v) :: rest else (k, w) :: dictSet rest key v

/-- Python `k in d` for a dict value; `False` for every non-dict (the bodies the
claims exercise are dicts). -/
def PyVal.hasKey : PyVal → String → Bool
  | .dict kvs, k => (lookupKV kvs k).isSome
  | _, _ => false

/-- Python `d[k]` on a JSON value, `none` modelling a `KeyError`. -/
def PyVal.getKey : PyVal → String → Option PyVal
  | .dict kvs, k => lookupKV kvs k
  | _, _ => none

/-- Python `'status' in js and js['status'] == 'FAILED'` (core.py line 156):
true exactly when the body is a dict whose `status` entry is the string
`"FAILED"` (in Python no non-string JSON value compares equal to it). -/
def PyVal.statusFailed (js : PyVal) : Bool :=
  match js.getKey "status" with
  | some (.str s) => s = "FAILED"
  | _ => false

/-- Python `str(v)` as used by `"%s" % v`; exact on the string payloads the
library actually relays. -/
def PyVal.pyStr : PyVal → String
  | .pyNone => "None"
  | .str s => s
  | .num q => toString q
  | .bool b => if b then "True" else "False"
  | .list _ => "[...]"
  | .dict _ => "\x7b...\x7d"

/-- A date value (Python `datetime.date`). -/
structure PyDate where
  year : Nat
  month : Nat
  day : Nat

/-- Zero-padded decimal rendering of a natural number to width `w`. -/
def natPad (n : Nat) (w : Nat) : String :=
  let s := toString n
  String.mk (List.replicate (w - s.length) '0') ++ s

/-- Python `date.strftime("%Y-%m-%d")`. -/
def PyDate.fmtYmd (d : PyDate) : String :=
  natPad d.year 4 ++ "-" ++ natPad d.month 2 ++ "-" ++ natPad d.day 2

/-- Python `"{0:.Nf}".format(x)` for the nonnegative amounts the library
formats: the value scaled to `digits` decimal places, rounded to nearest
(ties at half round up; the inputs in this development are exact). -/
def fmtFixed (digits : Nat) (q : Rat) : String :=
  let n : Int := round (q * ((10 : Rat) ^ digits))
  let base : Int := (10 : Int) ^ digits
  toString (n / base) ++ "." ++ natPad (n % base).toNat digits

/-- The result of one `_send_request` call: a returned value, a raised
`PATSException` carrying its message, or an uncaught run-time error
(`KeyError`, JSON decode failure, ...), which is not a `PATSException`. -/
inductive Outcome where
  | ok (v : PyVal)
  | exn (msg : String)
  | crash (msg : String)

/-- The message of a raised `PATSException`, if the outcome is one. -/
def Outcome.exnMsg : Outcome → Option String
  | .exn m => some m
  | _ => none

/-- The returned value, if the outcome is a normal return. -/
def Outcome.okVal : Outcome → Option PyVal
  | .ok v => some v
  | _ => none

/-- Whether the outcome is an uncaught non-`PATSException` error. -/
def Outcome.isCrash : Outcome → Bool
  | .crash _ => true
  | _ => false

/-- One HTTP response as `_send_request` observes it: status, reason phrase,
body text, the JSON decode of the body (`none` models a decode failure), and
the `Location` header.  core.py (the version under verification) never reads
`location`; it is carried so that theorems can state that fact. -/
structure HttpResponse where
  status : Nat
  reason : String
  text : String
  json : Option PyVal
  location : Option String

/-- The PATS client state that affects response handling: the API key
(`PATSAPIClient.__init__`).  The `debug_mode` / `raw_mode` / `session` fields
only drive printing and the curl capture, never the returned value, and are
omitted. -/
structure PATSAPIClient where
  api_key : String

namespace PATSAPIClient

/-- The message of the exception raised by `PATSAPIClient._relay_error`
(core.py lines 169-206).  `error_code` is an `int` status at most call sites
but the raw JSON `code` field on the 422 path, hence `PyVal`. -/
def relay_error_msg (c : PATSAPIClient) (error_code : PyVal) (reason : String) : String :=
  match error_code with
  | .num q =>
    if q = 400 then
      "Bad Request. The parameters you provided did not validate"
    else if q = 401 then
      reason ++ " (Possibly invalid API key) " ++ c.api_key
    else if q = 404 then
      "Not found: " ++ reason
    else if q = 406 then
      "Not acceptable (perhaps your IP address has exceeded the API limit?)"
    else if q = 409 then
      "Not approved, the user has yet to approve your retrieve request"
    else if q = 500 then
      "Internal server error"
    else
      "Error: " ++ reason
  -- a non-numeric code (e.g. a string from a 422 body) matches none of the
  -- integer comparisons in the source and falls through to the generic case
  | _ => "Error: " ++ reason

/-- `PATSAPIClient._relay_error` as an outcome: every branch of the source
raises `PATSException`, so the embedding always produces `Outcome.exn`. -/
def relay_error (c : PATSAPIClient) (error_code : PyVal) (reason : String) : Outcome :=
  .exn (c.relay_error_msg error_code reason)

/-- The loop body of core.py lines 157-164: fold one `fieldValidations` entry
into the accumulated error string.  A separator `", "` is prepended when the
accumulator is nonempty; the `dataName` part is skipped when the key is absent
or `None`; ill-typed entries produce the uncaught `TypeError` the source would
raise. -/
def foldValidationEntry (acc : String) (e : PyVal) : Except String String :=
  match e with
  | .dict kvs =>
      let acc1 := if acc ≠ "" then acc ++ ", " else acc
      match lookupKV kvs "dataName" with
      | some (.str n) =>
          (match lookupKV kvs "message" with
           | some (.str m) => .ok (acc1 ++ n ++ ": " ++ m)
           | none => .ok (acc1 ++ n ++ ": ")
           | some _ => .error "TypeError: cannot concatenate")
      | some .pyNone | none =>
          (match lookupKV kvs "message" with
           | some (.str m) => .ok (acc1 ++ m)
           | none => .ok acc1
           | some _ => .error "TypeError: cannot concatenate")
      | some _ => .error "TypeError: cannot concatenate"
  | _ => .error "TypeError: entry is not a dict"

/-- The whole `fieldValidations` loop of core.py lines 156-164, starting from
accumulator `acc`. -/
def buildErrorStringFrom (acc : String) : List PyVal → Except String String
  | [] => .ok acc
  | e :: rest =>
      match foldValidationEntry acc e with
      | .ok acc2 => buildErrorStringFrom acc2 rest
      | .error m => .error m

/-- `errorString` as computed by core.py lines 156-164 (initial accumulator
`""`). -/
def buildErrorString (entries : List PyVal) : Except String String :=
  buildErrorStringFrom "" entries

/-- The response-handling tail of `PATSAPIClient._send_request`
(core.py lines 134-167): everything after the single HTTP exchange. -/
def handle_response (c : PATSAPIClient) (r : HttpResponse) : Outcome :=
  -- core.py 135-136: Bad Request gives an error in text, not JSON
  if r.status = 400 then c.relay_error (.num 400) r.text
  -- core.py 140-141: anything other than 200/422 is relayed with reason + body
  else if r.status ≠ 200 ∧ r.status ≠ 422 then
    c.relay_error (.num r.status) (r.reason ++ " " ++ r.text)
  -- core.py 144-145: empty body returns the empty-string sentinel
  else if r.text = "" then .ok (.str "")
  else
    match r.json with
    | none => .crash "ValueError: No JSON object could be decoded"
    | some js =>
      -- core.py 149-154: 422 with a message field relays js[code]/js[message];
      -- js[code] is looked up unconditionally, so a missing code is a KeyError
      if r.status = 422 then
        if js.hasKey "message" then
          match js.getKey "code", js.getKey "message" with
          | some code, some msg => c.relay_error code msg.pyStr
          | _, _ => .crash "KeyError: code"
        else c.relay_error (.num 422) r.text
      -- core.py 156-165: a 200 whose body says status FAILED is a soft failure
      else if js.statusFailed then
        match js.getKey "fieldValidations" with
        | some (.list entries) =>
            (match buildErrorString entries with
             | .ok s => c.relay_error (.num 422) s
             | .error m => .crash m)
        | some _ => .crash "TypeError: fieldValidations is not iterable"
        | none => .crash "KeyError: fieldValidations"
      else .ok js

/-- `PATSAPIClient._send_request` over a transport oracle that gives the
response the server would return to the n-th attempt.  The source
(core.py lines 91-167) performs exactly one `h.request`/`h.getresponse`
exchange — there is no retry loop of any kind — so the embedding consumes only
`transport 0` and the attempt count is 1. -/
def send_request (c : PATSAPIClient) (transport : Nat → HttpResponse) : Outcome × Nat :=
  (c.handle_response (transport 0), 1)

end PATSAPIClient

/-- Python truthiness of an optional numeric field (absent or `''` defaults
are `none`; a number is truthy exactly when nonzero). -/
def ratTruthy : Option Rat → Bool
  | none => false
  | some q => decide (q ≠ 0)

/-- `InsertionOrderLineItem` (core.py lines 347-478): the fields set by
`__init__` from the caller-supplied mapping, with the source defaults.  The
`section` attribute is called `sectionName` here because `section` is a Lean
keyword.  Rates and planned costs default to `None` (`none`); every other
field defaults to the empty string. -/
structure InsertionOrderLineItem where
  operation : String := "Add"
  lineNumber : String := ""
  externalPlacementId : String := ""
  lineItemExternalId : String := ""
  placementName : String := ""
  costMethod : String := ""
  unitType : String := ""
  plannedCost : Option Rat := none
  buyCategory : String := ""
  buyType : String := ""
  rate : Option Rat := none
  sectionName : String := ""
  subsection : String := ""
  comments : String := ""
  packageType : String := "Standalone"
  packageName : String := ""
  subMediaType : String := ""
  target : String := ""
  productId : String := ""

/-- `InsertionOrderLineItem.dict_repr(mode)` (core.py lines 410-478). -/
def InsertionOrderLineItem.dict_repr (li : InsertionOrderLineItem) (mode : String) :
    List (String × PyVal) :=
  let d : List (String × PyVal) :=
    [("lineNumber", .str li.lineNumber),
     ("externalPlacementId", .str li.externalPlacementId),
     ("packageType", .str li.packageType),
     ("costMethod", .str li.costMethod),
     ("unitType", .str li.unitType),
     ("section", .str li.sectionName),
     ("buyCategory", .str li.buyCategory),
     ("comments", .str li.comments),
     ("target", .str li.target)]
  -- core.py 422-425: rate included whenever it is not None
  let d := match li.rate with
    | some r => dictSet d "rate" (.str (fmtFixed 4 r))
    | none => d
  -- core.py 426-433: plannedCost formatted when not None, else empty string
  let d := match li.plannedCost with
    | some pc => dictSet d "plannedCost" (.str (fmtFixed 2 pc))
    | none => dictSet d "plannedCost" (.str "")
  -- core.py 434-461: buyer/seller divergence
  let d :=
    if mode = "buyer" then
      dictSet (dictSet (dictSet (dictSet d
        "operation" (.str li.operation))
        "placementName" (.str li.placementName))
        "subsection" (.str li.subsection))
        "subMediaType" (.str li.subMediaType)
    else
      let customColumns : List PyVal :=
        (if li.subMediaType ≠ "" then
          [.dict [("name", .str "SUBMEDIATYPE"), ("value", .str li.subMediaType)]]
         else []) ++
        (if li.subsection ≠ "" then
          [.dict [("name", .str "SUBSECTION"), ("value", .str li.subsection)]]
         else [])
      dictSet (dictSet (dictSet d
        "name" (.str li.placementName))
        "buyType" (.str li.buyType))
        "customColumns" (.list customColumns)
  -- core.py 462-477: re-set identifier fields when truthy
  let d := if li.externalPlacementId ≠ "" then
      dictSet d "externalPlacementId" (.str li.externalPlacementId) else d
  let d := if li.lineItemExternalId ≠ "" then
      dictSet d "lineItemExternalId" (.str li.lineItemExternalId) else d
  let d := if li.productId ≠ "" then
      dictSet d "productId" (.str li.productId) else d
  if li.packageName ≠ "" then
      dictSet d "packageName" (.str li.packageName) else d

/-- One entry of a digital line item `flighting` schedule
(core.py lines 684-694). -/
structure Flight where
  startDate : PyDate
  endDate : PyDate
  /-- passed through to the wire dict untouched -/
  unitAmount : PyVal
  plannedCost : Rat

/-- The wire form of one flighting entry (core.py lines 687-694). -/
def Flight.dict_repr (f : Flight) : PyVal :=
  .dict [("startDate", .str f.startDate.fmtYmd),
         ("endDate", .str f.endDate.fmtYmd),
         ("unitAmount", f.unitAmount),
         ("plannedCost", .str (fmtFixed 2 f.plannedCost))]

/-- `InsertionOrderLineItemDigital` (core.py lines 576-698): the parent fields
plus the digital-only attributes set in `__init__`.  `lineItemId` defaults to
`None`; flight dates default to `''` — both falsy, modelled as `""` / `none`. -/
structure InsertionOrderLineItemDigital extends InsertionOrderLineItem where
  lineItemId : String := ""
  site : String := ""
  dimensions : String := ""
  dimensionsPosition : String := ""
  servedBy : String := ""
  unitAmount : String := ""
  flightStart : Option PyDate := none
  flightEnd : Option PyDate := none
  primaryPlacement : Bool := false
  flighting : List Flight := []

/-- `InsertionOrderLineItemDigital.dict_repr(mode)` (core.py lines 630-698):
starts from the parent wire dict and applies the digital updates in source
order. -/
def InsertionOrderLineItemDigital.dict_repr (li : InsertionOrderLineItemDigital)
    (mode : String) : List (String × PyVal) :=
  let d := li.toInsertionOrderLineItem.dict_repr mode
  let d := dictSet (dictSet (dictSet (dictSet d
      "site" (.str li.site))
      "dimensions" (.str li.dimensions))
      "dimensionsPosition" (.str li.dimensionsPosition))
      "servedBy" (.str li.servedBy)
  -- core.py 639-642: lineItemId only exists for revisions (seller mode)
  let d := if mode = "seller" ∧ li.lineItemId ≠ "" then
      dictSet d "lineItemId" (.str li.lineItemId) else d
  -- core.py 644-651: package children may have no dates
  let d := match li.flightStart with
    | some fs => dictSet d "flightStart" (.str fs.fmtYmd)
    | none => d
  let d := match li.flightEnd with
    | some fe => dictSet d "flightEnd" (.str fe.fmtYmd)
    | none => d
  let d := if li.unitAmount ≠ "" then
      dictSet d "unitAmount" (.str li.unitAmount) else d
  -- core.py 656-667: truthy rate, plain string for buyer, amount object for seller
  let d := if ratTruthy li.rate then
      (if mode = "buyer" then
        dictSet d "rate" (.str (fmtFixed 4 (li.rate.getD 0)))
      else
        dictSet d "rate" (.dict [("amount", .str (fmtFixed 4 (li.rate.getD 0))),
                                 ("currencyCode", .str "GBP")]))
    else d
  -- core.py 668-679: truthy plannedCost, "plannedCost" for buyer, "cost" for seller
  let d := if ratTruthy li.plannedCost then
      (if mode = "buyer" then
        dictSet d "plannedCost" (.str (fmtFixed 2 (li.plannedCost.getD 0)))
      else
        dictSet d "cost" (.dict [("amount", .str (fmtFixed 2 (li.plannedCost.getD 0))),
                                 ("currencyCode", .str "GBP")]))
    else d
  let d := if li.primaryPlacement then
      dictSet d "primaryPlacement" (.bool true) else d
  if li.flighting.isEmpty then d
  else dictSet d "flighting" (.list (li.flighting.map Flight.dict_repr))

/-- The keyword arguments accepted by `CampaignDetails.__init__`
(core.py lines 231-248).  `start_date` / `end_date` carry `some d` when the
caller supplied a real date and `none` when the value is anything else
(including the `''` default) — exactly the `isinstance(..., datetime.date)`
distinction the constructor tests.  `print_campaign` / `digital_campaign` are
only ever used for truthiness, budgets for truthiness and pass-through. -/
structure CampaignArgs where
  organisation_id : String := ""
  person_id : String := ""
  company_id : String := ""
  campaign_name : String := ""
  start_date : Option PyDate := none
  end_date : Option PyDate := none
  advertiser_code : String := ""
  print_campaign : Bool := false
  print_campaign_budget : Option Rat := none
  digital_campaign : Bool := false
  digital_campaign_budget : Option Rat := none
  campaign_budget : Option Rat := none
  external_campaign_id : String := ""

/-- A successfully constructed `CampaignDetails` (core.py lines 215-248). -/
structure CampaignDetails where
  organisation_id : String
  person_id : String
  company_id : String
  campaign_name : String
  start_date : PyDate
  end_date : PyDate
  advertiser_code : String
  print_campaign : Bool
  print_campaign_budget : Option Rat
  digital_campaign : Bool
  digital_campaign_budget : Option Rat
  campaign_budget : Option Rat
  external_campaign_id : String

/-- `CampaignDetails.__init__` (core.py lines 231-248): the only checks are
that `start_date` and `end_date` are Python dates (in source order); every
other argument — budgets included — is stored unchecked. -/
def CampaignDetails.init (a : CampaignArgs) : Except String CampaignDetails :=
  match a.start_date with
  | none => .error "Campaign start date must be a Python date (or blank)"
  | some sd =>
    match a.end_date with
    | none => .error "Campaign end date must be a Python date (or blank)"
    | some ed =>
      .ok { organisation_id := a.organisation_id
            person_id := a.person_id
            company_id := a.company_id
            campaign_name := a.campaign_name
            start_date := sd
            end_date := ed
            advertiser_code := a.advertiser_code
            print_campaign := a.print_campaign
            print_campaign_budget := a.print_campaign_budget
            digital_campaign := a.digital_campaign
            digital_campaign_budget := a.digital_campaign_budget
            campaign_budget := a.campaign_budget
            external_campaign_id := a.external_campaign_id }

/-- `CampaignDetails.dict_repr` (core.py lines 250-285).  The
conflicting-budget check sits here, after the base dict is built and before
the media budget is assembled; it raises (modelled as `.error`) when the
aggregate campaign budget and at least one per-media budget are both truthy. -/
def CampaignDetails.dict_repr (c : CampaignDetails) :
    Except String (List (String × PyVal)) :=
  let d : List (String × PyVal) :=
    [("CampaignName", .str c.campaign_name),
     ("StartDate", .str c.start_date.fmtYmd),
     ("EndDate", .str c.end_date.fmtYmd),
     ("Advertiser", .str c.advertiser_code),
     ("ExternalDetails", .dict [("CampaignSourceID", .str c.external_campaign_id)])]
  if ratTruthy c.campaign_budget ∧
      (ratTruthy c.print_campaign_budget ∨ ratTruthy c.digital_campaign_budget) then
    .error "Campaign can\x27t have both individual budgets and a campaign budget"
  else
    let media_budget : List (String × PyVal) :=
      if ratTruthy c.campaign_budget then
        [("CampaignBudget", .num (c.campaign_budget.getD 0))]
      else []
    let medias : List PyVal :=
      (if c.print_campaign then
        [.dict (("MediaMix", PyVal.str "Print") ::
          (if ratTruthy c.print_campaign_budget then
            [("Budget", PyVal.num (c.print_campaign_budget.getD 0))] else []))]
       else []) ++
      (if c.digital_campaign then
        [.dict (("MediaMix", PyVal.str "Online") ::
          (if ratTruthy c.digital_campaign_budget then
            [("Budget", PyVal.num (c.digital_campaign_budget.getD 0))] else []))]
       else [])
    let media_budget := media_budget ++ [("Medias", .dict [("Media", .list medias)])]
    .ok (d ++ [("MediaBudget", .dict media_budget)])

/-- The keyword arguments accepted by `InsertionOrderDetails.__init__`
(core.py lines 308-328).  The constructor also accepts an
`external_publisher_order_id` keyword, carried here so theorems can state
that the source never reads it (line 314 reads `external_order_id` again). -/
structure InsertionOrderArgs where
  campaign_id : String := ""
  media_type : String := ""
  external_order_id : String := ""
  external_publisher_order_id : String := ""
  publisher_id : String := ""
  agency_buyer_first_name : String := ""
  agency_buyer_last_name : String := ""
  agency_buyer_email : String := ""
  order_number : String := ""
  recipient_emails : List String := []
  terms_and_conditions : List PyVal := []
  respond_by_date : Option PyDate := none
  additional_info : String := ""
  message : String := ""
  notify_emails : List String := []

/-- A successfully constructed `InsertionOrderDetails`
(core.py lines 287-328). -/
structure InsertionOrderDetails where
  campaign_id : String
  media_type : String
  external_order_id : String
  external_publisher_order_id : String
  publisher_id : String
  agency_buyer_first_name : String
  agency_buyer_last_name : String
  agency_buyer_email : String
  order_number : String
  recipient_emails : List String
  terms_and_conditions : List PyVal
  respond_by_date : Option PyDate
  additional_info : String
  message : String
  notify_emails : List String

/-- `InsertionOrderDetails.__init__` (core.py lines 308-328).  Both 32-character
checks read `kwargs['external_order_id']`: line 314 assigns
`external_publisher_order_id` from the `external_order_id` keyword, so the
caller-supplied `external_publisher_order_id` is ignored. -/
def InsertionOrderDetails.init (a : InsertionOrderArgs) :
    Except String InsertionOrderDetails :=
  let external_order_id := a.external_order_id
  if external_order_id.length > 32 then
    .error "Order fails if length of external_order_id is more than 32 characters"
  else
    -- core.py 314: kwargs.get('external_order_id', ''), not the publisher id
    let external_publisher_order_id := a.external_order_id
    if external_publisher_order_id.length > 32 then
      .error "Order fails if length of external_publisher_order_id is more than 32 characters"
    else
      .ok { campaign_id := a.campaign_id
            media_type := a.media_type
            external_order_id := external_order_id
            external_publisher_order_id := external_publisher_order_id
            publisher_id := a.publisher_id
            agency_buyer_first_name := a.agency_buyer_first_name
            agency_buyer_last_name := a.agency_buyer_last_name
            agency_buyer_email := a.agency_buyer_email
            order_number := a.order_number
            recipient_emails := a.recipient_emails
            terms_and_conditions := a.terms_and_conditions
            respond_by_date := a.respond_by_date
            additional_info := a.additional_info
            message := a.message
            notify_emails := a.notify_emails }

/-- `InsertionOrderDetails.dict_repr` (core.py lines 330-345).  The source
calls `self.respond_by_date.strftime(...)` unconditionally; a non-date value
there is an uncaught `AttributeError`, modelled as `.error`. -/
def InsertionOrderDetails.dict_repr (o : InsertionOrderDetails) :
    Except String (List (String × PyVal)) :=
  match o.respond_by_date with
  | none => .error "AttributeError: no strftime"
  | some rbd =>
    .ok [("externalOrderId", .str o.external_order_id),
         ("externalPublisherOrderId", .str o.external_publisher_order_id),
         ("publisherId", .str o.publisher_id),
         ("agencyBuyerFirstName", .str o.agency_buyer_first_name),
         ("agencyBuyerLastName", .str o.agency_buyer_last_name),
         ("agencyBuyerEmail", .str o.agency_buyer_email),
         ("recipientEmails", .list (o.recipient_emails.map PyVal.str)),
         ("termsAndConditions", .list o.terms_and_conditions),
         ("respondByDate", .str rbd.fmtYmd),
         ("additionalInfo", .str o.additional_info),
         ("message", .str o.message),
         ("notifyEmails", .list (o.notify_emails.map PyVal.str))]

/-- `sub` occurs as a contiguous substring of `s`. -/
def strContains (s sub : String) : Prop :=
  sub.data <:+: s.data

instance (s sub : String) : Decidable (strContains s sub) :=
  List.decidableInfix sub.data s.data

/-- A fixed client used by the concrete evaluations below. -/
def demoClient : PATSAPIClient := { api_key := "DEMO-KEY-123" }

/-- A 201 Created response that does carry a Location header, as the buyer and
seller order-creation endpoints produce (buyer.py line 589, seller.py
line 530). -/
def resp201 : HttpResponse :=
  { status := 201
    reason := "Created"
    text := ""
    json := none
    location := some "https://host/orders/O-1/versions/0" }

/-- A transport on which every attempt yields 504 Gateway Timeout. -/
def transport504 : Nat → HttpResponse := fun _ =>
  { status := 504
    reason := "Gateway Timeout"
    text := ""
    json := none
    location := none }

/-- A 400 response whose body text explains the problem. -/
def resp400 : HttpResponse :=
  { status := 400
    reason := "Bad Request"
    text := "field x is broken"
    json := none
    location := none }

/-- A 422 response whose decoded body has a `message` field but no `code`
field. -/
def resp422NoCode : HttpResponse :=
  { status := 422
    reason := "Unprocessable Entity"
    text := "\x7b\"message\": \"startDate invalid\"\x7d"
    json := some (.dict [("message", .str "startDate invalid")])
    location := none }

/-- The rendering of one well-formed `fieldValidations` entry as the spec
words it: the `"<dataName>: "` part when a (non-null, string) name is
present, followed by the `message` when present. -/
def entryRepr (e : PyVal) : String :=
  (match e.getKey "dataName" with
   | some (.str n) => n ++ ": "
   | _ => "") ++
  (match e.getKey "message" with
   | some (.str m) => m
   | _ => "")

/-- A `fieldValidations` entry the source processes without a `TypeError`:
a dict whose `dataName` is absent, null or a string, and whose `message` is
absent or a string. -/
def wfEntry : PyVal → Bool
  | .dict kvs =>
      (match lookupKV kvs "dataName" with
       | some (.str _) => true
       | some .pyNone => true
       | none => true
       | some _ => false) &&
      (match lookupKV kvs "message" with
       | some (.str _) => true
       | none => true
       | some _ => false)
  | _ => false

/-- The spec-side join: the entry renderings separated by `", "`. -/
def commaJoin : List String → String
  | [] => ""
  | [s] => s
  | s :: rest => s ++ ", " ++ commaJoin rest

/-- A 200 response whose body reports a domain-level FAILED status with one
field validation. -/
def resp200Failed : HttpResponse :=
  { status := 200
    reason := "OK"
    text := "\x7b\"status\":\"FAILED\",\"fieldValidations\":[\x7b\"dataName\":\"startDate\",\"message\":\"required\"\x7d]\x7d"
    json := some (.dict
      [("status", .str "FAILED"),
       ("fieldValidations", .list
         [.dict [("dataName", .str "startDate"), ("message", .str "required")]])])
    location := none }

/-- A Roadblock-package digital line item (all commercial fields supplied). -/
def demoRoadblock : InsertionOrderLineItemDigital :=
  { lineNumber := "1"
    placementName := "Roadblock header"
    packageType := "Roadblock"
    buyCategory := "Roadblock"
    costMethod := "CPM"
    unitType := "Impressions"
    rate := some 15
    plannedCost := some 30000 }

/-- A Child-package digital line item. -/
def demoChild : InsertionOrderLineItemDigital :=
  { lineNumber := "2"
    placementName := "Child placement"
    packageType := "Child"
    buyCategory := "Display"
    costMethod := "CPM"
    unitType := "Impressions"
    rate := some 15 }

/-- A fully populated digital line item used to exhibit the divergence. -/
def demoDigitalLineItem : InsertionOrderLineItemDigital :=
  { lineNumber := "1"
    externalPlacementId := "TestOrder-Monday-NewsUK-1-001"
    placementName := "Times Sport Banner"
    costMethod := "CPM"
    unitType := "Impressions"
    sectionName := "Sport"
    subsection := "Football"
    subMediaType := "Display (Digital)"
    buyCategory := "Display"
    rate := some 15
    plannedCost := some 30000
    site := "thetimes.co.uk"
    dimensions := "468x60"
    unitAmount := "2000000" }

/-- Campaign arguments carrying both an aggregate and a print budget. -/
def demoCampaignArgs : CampaignArgs :=
  { campaign_name := "BQ Monday test campaign 1"
    start_date := some ⟨2015, 2, 1⟩
    end_date := some ⟨2015, 2, 28⟩
    advertiser_code := "DEM"
    print_campaign := true
    print_campaign_budget := some 10000
    campaign_budget := some 50000
    external_campaign_id := "BQMONDAYTEST1" }

/-- The campaign object the constructor builds from `demoCampaignArgs`. -/
def demoCampaignDetails : CampaignDetails :=
  { organisation_id := ""
    person_id := ""
    company_id := ""
    campaign_name := "BQ Monday test campaign 1"
    start_date := ⟨2015, 2, 1⟩
    end_date := ⟨2015, 2, 28⟩
    advertiser_code := "DEM"
    print_campaign := true
    print_campaign_budget := some 10000
    digital_campaign := false
    digital_campaign_budget := none
    campaign_budget := some 50000
    external_campaign_id := "BQMONDAYTEST1" }

/-- Order arguments supplying a distinct (ignored) publisher order id. -/
def demoOrderArgs : InsertionOrderArgs :=
  { campaign_id := "CAMPAIGN-1"
    media_type := "DIGITAL"
    external_order_id := "BQMONDAYTEST1-ORD"
    external_publisher_order_id := "SOME-OTHER-PUBLISHER-ID"
    publisher_id := "35-EEBMG4J-4"
    respond_by_date := some ⟨2015, 1, 20⟩ }

/-- The order object built from `demoOrderArgs`: both identifiers carry the
`external_order_id` value. -/
def demoOrderDetails : InsertionOrderDetails :=
  { campaign_id := "CAMPAIGN-1"
    media_type := "DIGITAL"
    external_order_id := "BQMONDAYTEST1-ORD"
    external_publisher_order_id := "BQMONDAYTEST1-ORD"
    publisher_id := "35-EEBMG4J-4"
    agency_buyer_first_name := ""
    agency_buyer_last_name := ""
    agency_buyer_email := ""
    order_number := ""
    recipient_emails := []
    terms_and_conditions := []
    respond_by_date := some ⟨2015, 1, 20⟩
    additional_info := ""
    message := ""
    notify_emails := [] }

theorem lookupKV_dictSet (kvs : List (String × PyVal)) (k key : String) (v : PyVal) :
    lookupKV (dictSet kvs key v) k = if k = key then some v else lookupKV kvs k := by
  induction kvs with
  | nil =>
      by_cases h : k = key
      · subst h; simp [dictSet, lookupKV]
      · simp [dictSet, lookupKV, h, Ne.symm h]
  | cons hd tl ih =>
      obtain ⟨k0, w⟩ := hd
      by_cases h0 : k0 = key
      · subst h0
        by_cases h : k0 = k
        · subst h; simp [dictSet, lookupKV]
        · simp [dictSet, lookupKV, h, Ne.symm h]
      · by_cases h : k0 = k
        · subst h
          simp [dictSet, h0, lookupKV, Ne.symm h0]
        · simp [dictSet, h0, lookupKV, h, ih]

theorem strContains_append_right (a sub : String) : strContains (a ++ sub) sub :=
  ⟨a.data, [], by simp [String.data_append]⟩

theorem strContains_append_middle (a sub b : String) :
    strContains (a ++ sub ++ b) sub :=
  ⟨a.data, b.data, by simp [String.data_append]⟩

theorem strContains_append_left (sub b : String) : strContains (sub ++ b) sub :=
  ⟨[], b.data, by simp [String.data_append]⟩

/-- C1: evaluation of the code at the failing input.  A 201 response — even
one carrying the documented Location header — falls into the generic
non-200/non-422 branch of `_send_request` (core.py lines 140-141), which
relays it as an error; the Location header is never read and no value is
returned, contradicting the callers' own documentation of this path. -/
theorem sendRequest_201_raises_despite_location :
    (demoClient.handle_response resp201).exnMsg = some "Error: Created " ∧
    (demoClient.handle_response resp201).okVal = none ∧
    resp201.location = some "https://host/orders/O-1/versions/0" := by
  refine ⟨?_, ?_, rfl⟩ <;> rfl

/-- C2 counterexample: with a transport that always answers 504, one single
request attempt is made — not the 3 the claim requires — and the call raises
the generic relayed error at once. -/
theorem sendRequest_504_attempts_ne_three :
    (demoClient.send_request transport504).2 = 1 ∧
    ¬ (demoClient.send_request transport504).2 = 3 ∧
    (demoClient.send_request transport504).1.exnMsg = some "Error: Gateway Timeout " := by
  exact ⟨rfl, by decide, rfl⟩

/-- C2 (amended): `_send_request` performs exactly one request attempt for
every transport — there is no retry loop and no sleep — and a 504 response
terminates immediately through the generic non-200/non-422 error branch. -/
theorem sendRequest_single_attempt_504_terminal (c : PATSAPIClient)
    (t : Nat → HttpResponse) :
    (c.send_request t).2 = 1 ∧
    ((t 0).status = 504 →
      (c.send_request t).1 =
        .exn ("Error: " ++ ((t 0).reason ++ " " ++ (t 0).text))) := by
  constructor
  · rfl
  · intro h
    simp [PATSAPIClient.send_request, PATSAPIClient.handle_response, h,
      PATSAPIClient.relay_error, PATSAPIClient.relay_error_msg]

theorem sendRequest_single_attempt_504_terminal_witness :
    (demoClient.send_request transport504).2 = 1 ∧
    (demoClient.send_request transport504).1 =
      .exn ("Error: " ++ ("Gateway Timeout" ++ " " ++ "")) :=
  ⟨(sendRequest_single_attempt_504_terminal demoClient transport504).1,
   (sendRequest_single_attempt_504_terminal demoClient transport504).2 rfl⟩

/-- C4 counterexample: on a 400 the raised message is the fixed bad-request
text; the response body is not contained in it. -/
theorem sendRequest_400_message_omits_body :
    (demoClient.handle_response resp400).exnMsg =
      some "Bad Request. The parameters you provided did not validate" ∧
    ¬ strContains "Bad Request. The parameters you provided did not validate"
        "field x is broken" := by
  exact ⟨rfl, by decide⟩

/-- C4 (amended): every 400 response raises immediately; the raw body text is
passed (un-decoded) to `_relay_error` as the reason, but the 400 branch of
`_relay_error` discards the reason, so the raised message is always the fixed
bad-request text and does not include the body. -/
theorem sendRequest_400_fixed_message (c : PATSAPIClient) (r : HttpResponse)
    (h : r.status = 400) :
    c.handle_response r =
      .exn "Bad Request. The parameters you provided did not validate" := by
  simp [PATSAPIClient.handle_response, h, PATSAPIClient.relay_error,
    PATSAPIClient.relay_error_msg]

theorem sendRequest_400_fixed_message_witness :
    demoClient.handle_response resp400 =
      .exn "Bad Request. The parameters you provided did not validate" :=
  sendRequest_400_fixed_message demoClient resp400 rfl

/-- C5 counterexample: a 422 body with a `message` but no `code` does not fall
back to the 422 status — `js['code']` is looked up unconditionally
(core.py line 151), so the call dies with an uncaught `KeyError` instead of a
`PATSException`. -/
theorem sendRequest_422_missing_code_crashes :
    (demoClient.handle_response resp422NoCode).isCrash = true ∧
    (demoClient.handle_response resp422NoCode).exnMsg = none := by
  exact ⟨rfl, rfl⟩

/-- C5 (amended): for a 422 response with a nonempty JSON dict body:
with both `message` and `code` present the call raises through
`_relay_error(js['code'], js['message'])`; with `message` present but `code`
absent the lookup of `code` is an uncaught `KeyError`, not a fallback to the
422 status; with no `message` field the entire body text is relayed, which
the unmapped-code branch renders as `"Error: <body>"`. -/
theorem sendRequest_422_code_branches (c : PATSAPIClient) (r : HttpResponse)
    (kvs : List (String × PyVal))
    (h422 : r.status = 422) (htext : r.text ≠ "")
    (hjson : r.json = some (.dict kvs)) :
    (∀ code msg, lookupKV kvs "code" = some code →
        lookupKV kvs "message" = some msg →
        c.handle_response r = c.relay_error code msg.pyStr) ∧
    ((lookupKV kvs "message").isSome → lookupKV kvs "code" = none →
        (c.handle_response r).isCrash = true) ∧
    (lookupKV kvs "message" = none →
        c.handle_response r = .exn ("Error: " ++ r.text)) := by
  refine ⟨?_, ?_, ?_⟩
  · intro code msg hcode hmsg
    simp [PATSAPIClient.handle_response, h422, htext, hjson, PyVal.hasKey,
      PyVal.getKey, hcode, hmsg, Option.isSome]
  · intro hmsg hcode
    obtain ⟨msg, hm⟩ := Option.isSome_iff_exists.mp hmsg
    simp [PATSAPIClient.handle_response, h422, htext, hjson, PyVal.hasKey,
      PyVal.getKey, hcode, hm, Outcome.isCrash]
  · intro hmsg
    simp [PATSAPIClient.handle_response, h422, htext, hjson, PyVal.hasKey,
      PyVal.getKey, hmsg, PATSAPIClient.relay_error, PATSAPIClient.relay_error_msg]

theorem sendRequest_422_code_branches_witness :
    (demoClient.handle_response resp422NoCode).isCrash = true :=
  (sendRequest_422_code_branches demoClient resp422NoCode
      [("message", .str "startDate invalid")] rfl (by decide) rfl).2.1
    (by decide) rfl

theorem foldValidationEntry_wf (acc : String) (e : PyVal) (h : wfEntry e = true) :
    PATSAPIClient.foldValidationEntry acc e =
      .ok ((if acc ≠ "" then acc ++ ", " else acc) ++ entryRepr e) := by
  match e with
  | .pyNone | .str _ | .num _ | .bool _ | .list _ => simp [wfEntry] at h
  | .dict kvs =>
    simp only [wfEntry, Bool.and_eq_true] at h
    obtain ⟨h1, h2⟩ := h
    rcases hd : lookupKV kvs "dataName" with _ | d <;>
      rw [hd] at h1 <;>
      rcases hm : lookupKV kvs "message" with _ | m
    · simp [PATSAPIClient.foldValidationEntry, hd, hm, entryRepr, PyVal.getKey]
    · rw [hm] at h2
      cases m <;>
        simp_all [PATSAPIClient.foldValidationEntry, hd, hm, entryRepr, PyVal.getKey,
          String.append_assoc]
    · cases d <;>
        simp_all [PATSAPIClient.foldValidationEntry, hd, hm, entryRepr, PyVal.getKey,
          String.append_assoc]
    · rw [hm] at h2
      cases d <;> cases m <;>
        simp_all [PATSAPIClient.foldValidationEntry, hd, hm, entryRepr, PyVal.getKey,
          String.append_assoc]

theorem strAppend_ne_empty (a b : String) (h : a ≠ "") : a ++ b ≠ "" := by
  intro hc
  apply h
  have hdata : a.data ++ b.data = [] := by
    have hd := congrArg String.data hc
    simpa [String.data_append] using hd
  apply String.ext
  rw [(List.append_eq_nil.mp hdata).1]

theorem buildErrorStringFrom_cons_ok (acc acc2 : String) (e : PyVal)
    (rest : List PyVal)
    (hstep : PATSAPIClient.foldValidationEntry acc e = .ok acc2) :
    PATSAPIClient.buildErrorStringFrom acc (e :: rest) =
      PATSAPIClient.buildErrorStringFrom acc2 rest := by
  rw [PATSAPIClient.buildErrorStringFrom, hstep]

theorem buildErrorStringFrom_wf (entries : List PyVal)
    (h : ∀ e ∈ entries, wfEntry e = true ∧ entryRepr e ≠ "") :
    ∀ acc, acc ≠ "" →
      PATSAPIClient.buildErrorStringFrom acc entries =
        .ok (if entries.isEmpty then acc
             else acc ++ ", " ++ commaJoin (entries.map entryRepr)) := by
  induction entries with
  | nil => intro acc hacc; simp [PATSAPIClient.buildErrorStringFrom]
  | cons e rest ih =>
    intro acc hacc
    obtain ⟨hwf, hne⟩ := h e (List.mem_cons_self e rest)
    have hrest : ∀ x ∈ rest, wfEntry x = true ∧ entryRepr x ≠ "" :=
      fun x hx => h x (List.mem_cons_of_mem e hx)
    have hstep := foldValidationEntry_wf acc e hwf
    rw [if_pos hacc] at hstep
    rw [buildErrorStringFrom_cons_ok acc _ e rest hstep]
    cases rest with
    | nil =>
      simp [PATSAPIClient.buildErrorStringFrom, commaJoin, String.append_assoc]
    | cons e2 rest2 =>
      have hacc2 : acc ++ ", " ++ entryRepr e ≠ "" := by
        rw [String.append_assoc]
        exact strAppend_ne_empty acc _ hacc
      rw [ih hrest (acc ++ ", " ++ entryRepr e) hacc2]
      simp only [List.isEmpty_cons, List.map_cons, if_neg Bool.false_ne_true]
      rw [show commaJoin (entryRepr e :: entryRepr e2 :: (rest2.map entryRepr)) =
            entryRepr e ++ ", " ++ commaJoin (entryRepr e2 :: rest2.map entryRepr)
          from rfl]
      simp [String.append_assoc]

/-- core.py lines 156-164 compute exactly the comma-separated join of the
entry renderings, provided every entry is well formed and renders nonempty. -/
theorem buildErrorString_eq_commaJoin (entries : List PyVal)
    (h : ∀ e ∈ entries, wfEntry e = true ∧ entryRepr e ≠ "") :
    PATSAPIClient.buildErrorString entries = .ok (commaJoin (entries.map entryRepr)) := by
  cases entries with
  | nil => rfl
  | cons e rest =>
    obtain ⟨hwf, hne⟩ := h e (List.mem_cons_self e rest)
    have hrest : ∀ x ∈ rest, wfEntry x = true ∧ entryRepr x ≠ "" :=
      fun x hx => h x (List.mem_cons_of_mem e hx)
    have hstep := foldValidationEntry_wf "" e hwf
    simp only [ne_eq, not_true_eq_false, if_false, String.empty_append] at hstep
    rw [PATSAPIClient.buildErrorString,
      buildErrorStringFrom_cons_ok "" _ e rest hstep]
    cases rest with
    | nil => simp [PATSAPIClient.buildErrorStringFrom, commaJoin]
    | cons e2 rest2 =>
      rw [buildErrorStringFrom_wf _ hrest _ hne]
      simp only [List.isEmpty_cons, List.map_cons, if_neg Bool.false_ne_true]
      rfl

/-- C3 counterexample: for the single-entry FAILED body the raised message is
`"Error: startDate: required"` — the reason string is relayed through
`_relay_error(422, ...)`, whose unmapped-code branch prepends `"Error: "` —
not the bare `"startDate: required"` the claim requires. -/
theorem sendRequest_200_failed_message_not_bare :
    (demoClient.handle_response resp200Failed).exnMsg =
      some "Error: startDate: required" ∧
    (demoClient.handle_response resp200Failed).exnMsg ≠
      some "startDate: required" := by
  constructor
  · rfl
  · intro h
    rw [show (demoClient.handle_response resp200Failed).exnMsg =
          some "Error: startDate: required" from rfl] at h
    simp at h

/-- C3 (amended): a 200 response whose JSON body has top-level status
`"FAILED"` raises, with message exactly `"Error: "` followed by the
concatenation of the `fieldValidations` entries as `"<dataName>: <message>"`
pairs joined with `", "` (the name portion skipped when absent or null). -/
theorem sendRequest_200_failed_message_prefixed (c : PATSAPIClient)
    (r : HttpResponse) (js : PyVal) (entries : List PyVal) (s : String)
    (h200 : r.status = 200) (htext : r.text ≠ "") (hjson : r.json = some js)
    (hfail : js.statusFailed = true)
    (hfv : js.getKey "fieldValidations" = some (.list entries))
    (hbuild : PATSAPIClient.buildErrorString entries = .ok s) :
    c.handle_response r = .exn ("Error: " ++ s) ∧
    ((∀ e ∈ entries, wfEntry e = true ∧ entryRepr e ≠ "") →
      s = commaJoin (entries.map entryRepr)) := by
  constructor
  · simp [PATSAPIClient.handle_response, h200, htext, hjson, hfail, hfv, hbuild,
      PATSAPIClient.relay_error, PATSAPIClient.relay_error_msg]
  · intro hwf
    exact Except.ok.inj (hbuild.symm.trans (buildErrorString_eq_commaJoin entries hwf))

theorem sendRequest_200_failed_message_prefixed_witness :
    demoClient.handle_response resp200Failed =
      .exn ("Error: " ++ "startDate: required") ∧
    "startDate: required" =
      commaJoin ([PyVal.dict [("dataName", .str "startDate"),
                              ("message", .str "required")]].map entryRepr) :=
  ⟨(sendRequest_200_failed_message_prefixed demoClient resp200Failed _
      [PyVal.dict [("dataName", .str "startDate"), ("message", .str "required")]]
      "startDate: required" rfl (by decide) rfl rfl rfl rfl).1,
   (sendRequest_200_failed_message_prefixed demoClient resp200Failed _
      [PyVal.dict [("dataName", .str "startDate"), ("message", .str "required")]]
      "startDate: required" rfl (by decide) rfl rfl rfl rfl).2 (by decide)⟩

/-- C9: `_relay_error` never returns — every input produces the single
exception kind — and each mapped status carries its required substring: 400
the fixed bad-request text, 401 the reason and the API key value in use, 404
the reason, 406 the fixed rate-limit phrase, 409 and 500 their fixed texts,
and any unmapped code the generic `"Error: <reason>"` containing the
supplied reason. -/
theorem relay_error_always_raises_with_substrings (c : PATSAPIClient)
    (code : PyVal) (reason : String) :
    (∃ m, c.relay_error code reason = .exn m) ∧
    c.relay_error_msg (.num 400) reason =
      "Bad Request. The parameters you provided did not validate" ∧
    strContains (c.relay_error_msg (.num 401) reason) c.api_key ∧
    strContains (c.relay_error_msg (.num 401) reason) reason ∧
    strContains (c.relay_error_msg (.num 404) reason) reason ∧
    c.relay_error_msg (.num 406) reason =
      "Not acceptable (perhaps your IP address has exceeded the API limit?)" ∧
    c.relay_error_msg (.num 409) reason =
      "Not approved, the user has yet to approve your retrieve request" ∧
    c.relay_error_msg (.num 500) reason = "Internal server error" ∧
    ((∀ q ∈ ([400, 401, 404, 406, 409, 500] : List Rat), code ≠ .num q) →
      c.relay_error_msg code reason = "Error: " ++ reason ∧
      strContains (c.relay_error_msg code reason) reason) := by
  refine ⟨⟨c.relay_error_msg code reason, rfl⟩,
    by norm_num [PATSAPIClient.relay_error_msg],
    ?_, ?_, ?_,
    by norm_num [PATSAPIClient.relay_error_msg],
    by norm_num [PATSAPIClient.relay_error_msg],
    by norm_num [PATSAPIClient.relay_error_msg], ?_⟩
  · rw [show c.relay_error_msg (.num 401) reason =
        (reason ++ " (Possibly invalid API key) ") ++ c.api_key by
          norm_num [PATSAPIClient.relay_error_msg, String.append_assoc]]
    exact strContains_append_right _ _
  · rw [show c.relay_error_msg (.num 401) reason =
        reason ++ (" (Possibly invalid API key) " ++ c.api_key) by
          norm_num [PATSAPIClient.relay_error_msg, String.append_assoc]]
    exact strContains_append_left _ _
  · rw [show c.relay_error_msg (.num 404) reason =
        "Not found: " ++ reason by norm_num [PATSAPIClient.relay_error_msg]]
    exact strContains_append_right _ _
  · intro hq
    have hmsg : c.relay_error_msg code reason = "Error: " ++ reason := by
      match code with
      | .pyNone | .str _ | .bool _ | .list _ | .dict _ => rfl
      | .num q =>
          have h400 := hq 400 (by norm_num)
          have h401 := hq 401 (by norm_num)
          have h404 := hq 404 (by norm_num)
          have h406 := hq 406 (by norm_num)
          have h409 := hq 409 (by norm_num)
          have h500 := hq 500 (by norm_num)
          simp only [PATSAPIClient.relay_error_msg]
          rw [if_neg (fun hc => h400 (by rw [hc])),
            if_neg (fun hc => h401 (by rw [hc])),
            if_neg (fun hc => h404 (by rw [hc])),
            if_neg (fun hc => h406 (by rw [hc])),
            if_neg (fun hc => h409 (by rw [hc])),
            if_neg (fun hc => h500 (by rw [hc]))]
    exact ⟨hmsg, by rw [hmsg]; exact strContains_append_right _ _⟩

theorem relay_error_always_raises_with_substrings_witness :
    demoClient.relay_error_msg (.num 200) "something odd happened" =
      "Error: " ++ "something odd happened" :=
  (((relay_error_always_raises_with_substrings demoClient (.num 200)
      "something odd happened").2.2.2.2.2.2.2.2) (by norm_num)).1

/-- Push a lookup through a conditional dict. -/
theorem lookupKV_ite (c : Prop) [Decidable c] (A B : List (String × PyVal)) (k : String) :
    lookupKV (if c then A else B) k = if c then lookupKV A k else lookupKV B k := by
  split <;> rfl

/-- Push a lookup through an optional update. -/
theorem lookupKV_omatch {α : Type} (o : Option α) (f : α → List (String × PyVal))
    (B : List (String × PyVal)) (k : String) :
    lookupKV (match o with | some x => f x | none => B) k =
      (match o with | some x => lookupKV (f x) k | none => lookupKV B k) := by
  cases o <;> rfl

/-- Collapse an option match whose branches agree. -/
theorem omatch_self {α β : Type} (o : Option α) (b : β) :
    (match o with | some _ => b | none => b) = b := by
  cases o <;> rfl

/-- Field-inclusion facts for `InsertionOrderLineItem.dict_repr`: the
commercial fields are emitted for every package type and both roles; `rate`
is present exactly when the rate attribute is set; `plannedCost` is always
present (empty string when unset). -/
theorem base_lookup_facts (li : InsertionOrderLineItem) (mode : String) :
    lookupKV (li.dict_repr mode) "buyCategory" = some (.str li.buyCategory) ∧
    lookupKV (li.dict_repr mode) "costMethod" = some (.str li.costMethod) ∧
    lookupKV (li.dict_repr mode) "unitType" = some (.str li.unitType) ∧
    lookupKV (li.dict_repr mode) "packageType" = some (.str li.packageType) ∧
    (lookupKV (li.dict_repr mode) "rate").isSome = li.rate.isSome ∧
    lookupKV (li.dict_repr mode) "plannedCost" =
      some (.str (match li.plannedCost with
                  | some pc => fmtFixed 2 pc
                  | none => "")) := by
  refine ⟨?_, ?_, ?_, ?_, ?_, ?_⟩ <;>
    simp only [InsertionOrderLineItem.dict_repr] <;>
    rcases li.rate with _ | r <;> rcases li.plannedCost with _ | pc <;>
    simp [lookupKV_ite, lookupKV_dictSet, ite_self, lookupKV]

/-- Push `Option.isSome` through a conditional. -/
theorem isSome_ite (c : Prop) [Decidable c] (A B : Option PyVal) :
    (if c then A else B).isSome = if c then A.isSome else B.isSome := by
  split <;> rfl

set_option maxRecDepth 8000 in
/-- The same field-inclusion facts for the digital subclass: none of the
digital-only updates removes or conditions the commercial fields on the
package type. -/
theorem digital_lookup_facts (ld : InsertionOrderLineItemDigital) (mode : String) :
    lookupKV (ld.dict_repr mode) "buyCategory" = some (.str ld.buyCategory) ∧
    lookupKV (ld.dict_repr mode) "costMethod" = some (.str ld.costMethod) ∧
    lookupKV (ld.dict_repr mode) "unitType" = some (.str ld.unitType) ∧
    lookupKV (ld.dict_repr mode) "packageType" = some (.str ld.packageType) ∧
    (lookupKV (ld.dict_repr mode) "rate").isSome = ld.rate.isSome := by
  have h1 := fun m => (base_lookup_facts ld.toInsertionOrderLineItem m).1
  have h2 := fun m => (base_lookup_facts ld.toInsertionOrderLineItem m).2.1
  have h3 := fun m => (base_lookup_facts ld.toInsertionOrderLineItem m).2.2.1
  have h4 := fun m => (base_lookup_facts ld.toInsertionOrderLineItem m).2.2.2.1
  have h5 := fun m => (base_lookup_facts ld.toInsertionOrderLineItem m).2.2.2.2.1
  refine ⟨?_, ?_, ?_, ?_, ?_⟩ <;>
    simp only [InsertionOrderLineItemDigital.dict_repr] <;>
    rcases ld.flightStart with _ | fs <;>
    rcases ld.flightEnd with _ | fe <;>
    rcases hr : ld.rate with _ | r <;>
    simp only [lookupKV_ite, lookupKV_dictSet, isSome_ite, ite_self, hr,
      ratTruthy, h1, h2, h3, h4, h5, Option.isSome_some, Option.isSome_none] <;>
    simp [ite_self]

/-- C6 (amended): in a line item wire mapping (print/base and digital, both
roles) the buy-category, cost-method and unit-type fields are always included
regardless of package type — there is no Roadblock/Package/Child special case
in this version — and `rate` is included exactly when the rate attribute is
set, with no flat-fee omission. -/
theorem dict_repr_includes_commercial_fields_any_packageType :
    (∀ (li : InsertionOrderLineItem) (mode : String),
      lookupKV (li.dict_repr mode) "buyCategory" = some (.str li.buyCategory) ∧
      lookupKV (li.dict_repr mode) "costMethod" = some (.str li.costMethod) ∧
      lookupKV (li.dict_repr mode) "unitType" = some (.str li.unitType) ∧
      (lookupKV (li.dict_repr mode) "rate").isSome = li.rate.isSome) ∧
    (∀ (ld : InsertionOrderLineItemDigital) (mode : String),
      lookupKV (ld.dict_repr mode) "buyCategory" = some (.str ld.buyCategory) ∧
      lookupKV (ld.dict_repr mode) "unitType" = some (.str ld.unitType) ∧
      (lookupKV (ld.dict_repr mode) "rate").isSome = ld.rate.isSome) :=
  ⟨fun li mode =>
    ⟨(base_lookup_facts li mode).1, (base_lookup_facts li mode).2.1,
     (base_lookup_facts li mode).2.2.1, (base_lookup_facts li mode).2.2.2.2.1⟩,
   fun ld mode =>
    ⟨(digital_lookup_facts ld mode).1, (digital_lookup_facts ld mode).2.2.1,
     (digital_lookup_facts ld mode).2.2.2.2⟩⟩

/-- C6 counterexample: a Roadblock line item still carries `buyCategory` and
`rate` in its wire mapping, and a Child line item still carries `unitType`
and `rate`, contradicting the claimed package-type omissions. -/
theorem dict_repr_roadblock_includes_buyCategory :
    demoRoadblock.packageType = "Roadblock" ∧
    lookupKV (demoRoadblock.dict_repr "buyer") "buyCategory" =
      some (.str "Roadblock") ∧
    (lookupKV (demoRoadblock.dict_repr "buyer") "rate").isSome = true ∧
    demoChild.packageType = "Child" ∧
    lookupKV (demoChild.dict_repr "buyer") "unitType" = some (.str "Impressions") ∧
    (lookupKV (demoChild.dict_repr "buyer") "rate").isSome = true :=
  ⟨rfl, rfl, rfl, rfl, rfl, rfl⟩

/-- For the base line item, buyer and seller wire mappings agree on every key
outside the mode branch of `dict_repr` (core.py lines 434-461). -/
theorem base_mode_agree (li : InsertionOrderLineItem) (k : String)
    (n1 : k ≠ "operation") (n2 : k ≠ "placementName") (n3 : k ≠ "subsection")
    (n4 : k ≠ "subMediaType") (n5 : k ≠ "name") (n6 : k ≠ "buyType")
    (n7 : k ≠ "customColumns") :
    lookupKV (li.dict_repr "buyer") k = lookupKV (li.dict_repr "seller") k := by
  simp only [InsertionOrderLineItem.dict_repr]
  rcases li.rate with _ | r <;> rcases li.plannedCost with _ | pc <;>
  simp [lookupKV_ite, lookupKV_dictSet, ite_self, n1, n2, n3, n4, n5, n6, n7]

set_option maxRecDepth 8000 in
/-- C7 (amended): buyer-role and seller-role serializations of the same
digital line item agree on the value of every key outside the divergence set
(operation, placementName, subsection, subMediaType, name, buyType,
customColumns, lineItemId, rate, cost); the divergence is wider than the
renaming/relocation the claim lists, since buyer-only `operation`,
seller-only `buyType`/`lineItemId`, the seller `cost` object and the
mode-dependent shape of `rate` also differ. -/
theorem dict_repr_buyer_seller_agree_off_divergence
    (ld : InsertionOrderLineItemDigital) (k : String)
    (hk : k ∉ (["operation", "placementName", "subsection", "subMediaType",
                "name", "buyType", "customColumns", "lineItemId", "rate",
                "cost"] : List String)) :
    lookupKV (ld.dict_repr "buyer") k = lookupKV (ld.dict_repr "seller") k := by
  simp only [List.mem_cons, List.not_mem_nil, or_false, not_or] at hk
  obtain ⟨n1, n2, n3, n4, n5, n6, n7, n8, n9, n10⟩ := hk
  have hb := base_mode_agree ld.toInsertionOrderLineItem k n1 n2 n3 n4 n5 n6 n7
  have hb6 := fun m =>
    (base_lookup_facts ld.toInsertionOrderLineItem m).2.2.2.2.2
  by_cases hpc : k = "plannedCost"
  · subst hpc
    simp only [InsertionOrderLineItemDigital.dict_repr]
    rcases hr : ld.plannedCost with _ | pc
    · rcases ld.flightStart with _ | fs <;>
      rcases ld.flightEnd with _ | fe <;>
      simp [lookupKV_ite, lookupKV_dictSet, ite_self, hr, ratTruthy, hb6]
    · by_cases hz : pc = 0 <;>
      rcases ld.flightStart with _ | fs <;>
      rcases ld.flightEnd with _ | fe <;>
      simp [lookupKV_ite, lookupKV_dictSet, ite_self, hr, ratTruthy, hb6, hz,
        Option.getD_some]
  · simp only [InsertionOrderLineItemDigital.dict_repr]
    rcases ld.flightStart with _ | fs <;>
    rcases ld.flightEnd with _ | fe <;>
    simp [lookupKV_ite, lookupKV_dictSet, ite_self, n1, n2, n3, n4, n5, n6, n7,
      n8, n9, n10, hpc, hb]

/-- C7 counterexample: the buyer-role mapping of a digital line item carries
an `operation` key that the seller-role mapping of the same instance lacks,
so the two roles do not agree on every field outside the renamed/relocated
ones. -/
theorem dict_repr_buyer_seller_differ_on_operation :
    lookupKV (demoDigitalLineItem.dict_repr "buyer") "operation" =
      some (.str "Add") ∧
    lookupKV (demoDigitalLineItem.dict_repr "seller") "operation" = none ∧
    some (PyVal.str "Add") ≠ (none : Option PyVal) :=
  ⟨rfl, rfl, by simp⟩

theorem dict_repr_buyer_seller_agree_off_divergence_witness :
    lookupKV (demoDigitalLineItem.dict_repr "buyer") "site" =
      lookupKV (demoDigitalLineItem.dict_repr "seller") "site" :=
  dict_repr_buyer_seller_agree_off_divergence demoDigitalLineItem "site" (by decide)

/-- C8 counterexample: a `CampaignDetails` with both an aggregate campaign
budget and a print budget constructs successfully, and its `dict_repr` is
what raises the conflicting-budget error — the opposite of the claimed
construction-time validation. -/
theorem campaign_conflicting_budgets_constructs :
    CampaignDetails.init demoCampaignArgs = .ok demoCampaignDetails ∧
    demoCampaignDetails.dict_repr =
      .error "Campaign can\x27t have both individual budgets and a campaign budget" :=
  ⟨rfl, rfl⟩

/-- C8 (amended): the conflicting-budget check happens at serialization, not
construction: `__init__` accepts any budget combination (it only validates
the two dates) and `dict_repr` raises exactly when the aggregate campaign
budget and at least one per-media budget are both truthy. -/
theorem campaign_budget_check_at_serialization (a : CampaignArgs)
    (sd ed : PyDate) (hs : a.start_date = some sd) (he : a.end_date = some ed) :
    (∃ cd, CampaignDetails.init a = .ok cd) ∧
    (∀ cd, CampaignDetails.init a = .ok cd →
      ((∃ m, cd.dict_repr = .error m) ↔
        (ratTruthy cd.campaign_budget = true ∧
         (ratTruthy cd.print_campaign_budget = true ∨
          ratTruthy cd.digital_campaign_budget = true)))) := by
  constructor
  · exact ⟨_, by rw [CampaignDetails.init, hs, he]⟩
  · intro cd _
    constructor
    · intro ⟨m, hm⟩
      by_cases hcond : ratTruthy cd.campaign_budget = true ∧
          (ratTruthy cd.print_campaign_budget = true ∨
           ratTruthy cd.digital_campaign_budget = true)
      · exact hcond
      · rw [CampaignDetails.dict_repr] at hm
        rw [if_neg (by simpa using hcond)] at hm
        exact absurd hm (by simp)
    · intro hcond
      refine ⟨"Campaign can\x27t have both individual budgets and a campaign budget", ?_⟩
      rw [CampaignDetails.dict_repr, if_pos (by simpa using hcond)]

theorem campaign_budget_check_at_serialization_witness :
    (∃ cd, CampaignDetails.init demoCampaignArgs = .ok cd) ∧
    ((∃ m, demoCampaignDetails.dict_repr = .error m) ↔
      (ratTruthy demoCampaignDetails.campaign_budget = true ∧
       (ratTruthy demoCampaignDetails.print_campaign_budget = true ∨
        ratTruthy demoCampaignDetails.digital_campaign_budget = true))) :=
  ⟨(campaign_budget_check_at_serialization demoCampaignArgs _ _ rfl rfl).1,
   (campaign_budget_check_at_serialization demoCampaignArgs _ _ rfl rfl).2
     demoCampaignDetails rfl⟩

/-- C10: `InsertionOrderDetails.__init__` reads the `external_order_id`
keyword for both identifier attributes, so the caller-supplied
`external_publisher_order_id` is ignored, the wire mapping always has
`externalPublisherOrderId` equal to `externalOrderId`, and the second
32-character check can never fail on its own. -/
theorem order_details_publisher_id_mirrors_order_id (a : InsertionOrderArgs)
    (od : InsertionOrderDetails) (h : InsertionOrderDetails.init a = .ok od) :
    od.external_publisher_order_id = a.external_order_id ∧
    od.external_order_id = a.external_order_id ∧
    (∀ m, od.dict_repr = .ok m →
      lookupKV m "externalPublisherOrderId" = lookupKV m "externalOrderId") ∧
    (∀ b, InsertionOrderDetails.init b ≠
      .error "Order fails if length of external_publisher_order_id is more than 32 characters") := by
  have hnever : ∀ b, InsertionOrderDetails.init b ≠
      .error "Order fails if length of external_publisher_order_id is more than 32 characters" := by
    intro b hc
    rw [InsertionOrderDetails.init] at hc
    by_cases hb : b.external_order_id.length > 32
    · rw [if_pos hb] at hc
      have := Except.error.inj hc
      simp at this
    · rw [if_neg hb, if_neg hb] at hc
      exact absurd hc (by simp)
  rw [InsertionOrderDetails.init] at h
  by_cases hb : a.external_order_id.length > 32
  · rw [if_pos hb] at h
    exact absurd h (by simp)
  · rw [if_neg hb, if_neg hb] at h
    obtain rfl := Except.ok.inj h
    refine ⟨rfl, rfl, ?_, hnever⟩
    intro m hm
    rcases hrbd : a.respond_by_date with _ | rbd <;>
      simp only [InsertionOrderDetails.dict_repr, hrbd] at hm
    · exact absurd hm (by simp)
    · have hlist := Except.ok.inj hm
      subst hlist
      simp [lookupKV]

theorem order_details_publisher_id_mirrors_order_id_witness :
    demoOrderDetails.external_publisher_order_id =
      demoOrderArgs.external_order_id ∧
    demoOrderDetails.external_order_id = demoOrderArgs.external_order_id :=
  ⟨(order_details_publisher_id_mirrors_order_id demoOrderArgs demoOrderDetails rfl).1,
   (order_details_publisher_id_mirrors_order_id demoOrderArgs demoOrderDetails rfl).2.1⟩
